import Mathlib

/-!
Verification of the gradient-descent demo (`demos/GradientDescent.cpp`).

The C++ doubles are modelled as rationals (`ℚ`), so every arithmetic
identity is exact.  The gradient routine generated by `clad::gradient`
is modelled as an explicit oracle argument of type
`ℚ → ℚ → ℚ → ℚ → ℚ × ℚ × ℚ × ℚ` returning the four partial derivatives
written through the four output pointers of `clad_grad.execute`.
-/

namespace GradientDescent

/-- The hypothesis function `f(θ0, θ1, x) = θ0 + θ1·x`
(`GradientDescent.cpp`, lines 32-34). -/
def f (theta_0 theta_1 x : ℚ) : ℚ :=
  theta_0 + theta_1 * x

/-- The input dataset (`GradientDescent.cpp`, lines 39-44): parallel vectors
of inputs and outputs, the number of samples, and the learning rate. -/
structure Dataset where
  x : List ℚ
  y : List ℚ
  size : ℕ := 1000
  learning_rate : ℚ := 1/100

/-- The type of the gradient oracle: given `(θ0, θ1, x, y)` it returns the
four derivative outputs `(∂/∂θ0, ∂/∂θ1, ∂/∂x, ∂/∂y)`. -/
def GradOracle : Type :=
  ℚ → ℚ → ℚ → ℚ → ℚ × ℚ × ℚ × ℚ

/-- The sample loop of `performStep` (`GradientDescent.cpp`, lines 74-82):
starting from the accumulator `result = {0, 0}`, for each sample index
`i < dt.size` call the oracle and add its first two outputs. -/
def accumGrad (theta_0 theta_1 : ℚ) (dt : Dataset) (clad_grad : GradOracle) : ℚ × ℚ :=
  (List.range dt.size).foldl
    (fun result i =>
      let J := clad_grad theta_0 theta_1 (dt.x.getD i 0) (dt.y.getD i 0)
      (result.1 + J.1, result.2 + J.2.1))
    (0, 0)

/-- One minimization step (`GradientDescent.cpp`, lines 72-86): accumulate the
gradient over the whole dataset, then update both parameters by
`θ -= learning_rate * result / (2 * size)`. -/
def performStep (theta_0 theta_1 : ℚ) (dt : Dataset) (clad_grad : GradOracle) : ℚ × ℚ :=
  let result := accumGrad theta_0 theta_1 dt clad_grad
  (theta_0 - dt.learning_rate * result.1 / (2 * (dt.size : ℚ)),
   theta_1 - dt.learning_rate * result.2 / (2 * (dt.size : ℚ)))

/-- The cost function (`GradientDescent.cpp`, lines 90-93). -/
def cost (theta_0 theta_1 x y : ℚ) : ℚ :=
  let f_x := f theta_0 theta_1 x
  (f_x - y) * (f_x - y)

/-- Modelled from the spec: the gradient oracle produced by
`clad::gradient(cost)` (the automatic-differentiation output is not part of
the repository source).  Per §4.2 of the specification it returns the four
partial derivatives of `cost(θ0,θ1,x,y) = (f(θ0,θ1,x) - y)²`, the first two
being `2(f(θ0,θ1,x) - y)` and `2(f(θ0,θ1,x) - y)·x`. -/
def cladGrad : GradOracle := fun theta_0 theta_1 x y =>
  (2 * (f theta_0 theta_1 x - y),
   2 * (f theta_0 theta_1 x - y) * x,
   2 * (f theta_0 theta_1 x - y) * theta_1,
   -(2 * (f theta_0 theta_1 x - y)))

/-- The convergence test of the optimization loop
(`GradientDescent.cpp`, lines 113-114):
`abs(diff[0] - theta[0]) <= eps && abs(diff[1] - theta[1]) <= eps`. -/
def convergedCheck (diff theta : ℚ × ℚ) (eps : ℚ) : Bool :=
  decide (|diff.1 - theta.1| ≤ eps) && decide (|diff.2 - theta.2| ≤ eps)

/-- Terminal states of the optimizer state machine (spec §4.5).  The loop in
`optimize` exits either because the convergence flag was set or because the
step counter reached `maxSteps`. -/
inductive TermReason where
  | converged
  | maxStepsReached
deriving DecidableEq

/-- The `do … while (currentStep++ < maxSteps && !hasConverged)` loop of
`optimize` (`GradientDescent.cpp`, lines 107-117), instrumented to also
report the terminal state and the iteration index at which the loop exited.
`fuel` bounds the recursion; it is called with `fuel = maxSteps` and the
loop recurses only while `currentStep < maxSteps`, so fuel never runs out.
Following the short-circuit `&&`, an exit with `currentStep ≥ maxSteps` is
the step-bound exit and any other exit is the convergence exit. -/
def optimizeLoop (clad_grad : GradOracle) (dt : Dataset) (maxSteps : ℕ) (eps : ℚ) :
    ℕ → ℚ × ℚ → ℚ × ℚ → ℕ → (ℚ × ℚ) × TermReason × ℕ
  | fuel, theta, diff, currentStep =>
    let theta' := performStep theta.1 theta.2 dt clad_grad
    let hasConverged := convergedCheck diff theta' eps
    if currentStep < maxSteps ∧ hasConverged = false then
      match fuel with
      | 0 => (theta', TermReason.maxStepsReached, currentStep)
      | fuel' + 1 => optimizeLoop clad_grad dt maxSteps eps fuel' theta' theta' (currentStep + 1)
    else
      (theta',
       if currentStep < maxSteps then TermReason.converged else TermReason.maxStepsReached,
       currentStep)

/-- `optimize` (`GradientDescent.cpp`, lines 98-120) with instrumentation:
`diff` starts as a copy of the caller-supplied `theta` and `currentStep`
starts at 0. -/
def optimizeTraced (clad_grad : GradOracle) (theta : ℚ × ℚ) (dt : Dataset)
    (maxSteps : ℕ) (eps : ℚ) : (ℚ × ℚ) × TermReason × ℕ :=
  optimizeLoop clad_grad dt maxSteps eps maxSteps theta theta 0

/-- The return value of `optimize` (`GradientDescent.cpp`, line 119): only the
final parameter vector. -/
def optimize (clad_grad : GradOracle) (theta : ℚ × ℚ) (dt : Dataset)
    (maxSteps : ℕ) (eps : ℚ) : ℚ × ℚ :=
  (optimizeTraced clad_grad theta dt maxSteps eps).1

/-- A single x sample of the dataset constructor
(`GradientDescent.cpp`, line 55): `3 * (rand() % 100) / 100`, where `r` is
the raw draw. -/
def genX (r : ℕ) : ℚ :=
  3 * ((r % 100 : ℕ) : ℚ) / 100

/-- A single intercept draw of the dataset constructor
(`GradientDescent.cpp`, line 56): `9 + (rand() % 100) / 100`. -/
def genT0 (r : ℕ) : ℚ :=
  9 + ((r % 100 : ℕ) : ℚ) / 100

/-- The dataset constructor (`GradientDescent.cpp`, lines 46-66) with the
process-wide `std::rand()` stream made explicit as `rng` (spec §9): sample
`i` consumes draws `rng (2*i)` for x and `rng (2*i+1)` for the intercept,
sets `t1 = 2`, and stores `y = f(t0, t1, x)`. -/
def generateDataset (rng : ℕ → ℕ) (N : ℕ) : Dataset where
  x := (List.range N).map fun i => genX (rng (2 * i))
  y := (List.range N).map fun i => f (genT0 (rng (2 * i + 1))) 2 (genX (rng (2 * i)))
  size := N
  learning_rate := 1/100

/-- A concrete one-sample dataset used to instantiate universally quantified
theorems: `x = [1]`, `y = [4]`, `size = 1`, `learning_rate = 1/100`. -/
def dtW : Dataset :=
  ⟨[1], [4], 1, 1/100⟩

/-- `List.range 1` is the single index 0. -/
theorem range_one_eq : List.range 1 = [0] := rfl

/-- Folding the pairwise accumulation over a list adds the two pointwise sums
to the initial accumulator. -/
theorem foldl_pair_sum (a b : ℕ → ℚ) (l : List ℕ) :
    ∀ s t : ℚ,
      l.foldl (fun r i => (r.1 + a i, r.2 + b i)) (s, t) =
        (s + (l.map a).sum, t + (l.map b).sum) := by
  induction l with
  | nil => intro s t; simp
  | cons i l ih => intro s t; simp [ih, add_assoc]

/-- The accumulator computed by the sample loop of `performStep` is the sum,
over all sample indices, of the oracle's first two outputs. -/
theorem accumGrad_eq_sum (dt : Dataset) (g : GradOracle) (theta_0 theta_1 : ℚ) :
    accumGrad theta_0 theta_1 dt g =
      (((List.range dt.size).map fun i =>
          (g theta_0 theta_1 (dt.x.getD i 0) (dt.y.getD i 0)).1).sum,
       ((List.range dt.size).map fun i =>
          (g theta_0 theta_1 (dt.x.getD i 0) (dt.y.getD i 0)).2.1).sum) := by
  unfold accumGrad
  rw [foldl_pair_sum (fun i => (g theta_0 theta_1 (dt.x.getD i 0) (dt.y.getD i 0)).1)
    (fun i => (g theta_0 theta_1 (dt.x.getD i 0) (dt.y.getD i 0)).2.1)]
  simp

/-- C1: one call to `performStep` accumulates, over all `N = dt.size` samples
in order, the first two derivatives returned by the oracle into an accumulator
initialized to `(0, 0)`, and then sets the parameters to
`θ0 - learning_rate * accumulator[0] / (2N)` and
`θ1 - learning_rate * accumulator[1] / (2N)`. -/
theorem performStep_spec (dt : Dataset) (g : GradOracle) (theta_0 theta_1 : ℚ)
    (h : 1 ≤ dt.size) :
    performStep theta_0 theta_1 dt g =
      (theta_0 - dt.learning_rate *
          ((List.range dt.size).map fun i =>
            (g theta_0 theta_1 (dt.x.getD i 0) (dt.y.getD i 0)).1).sum / (2 * (dt.size : ℚ)),
       theta_1 - dt.learning_rate *
          ((List.range dt.size).map fun i =>
            (g theta_0 theta_1 (dt.x.getD i 0) (dt.y.getD i 0)).2.1).sum /
          (2 * (dt.size : ℚ))) := by
  unfold performStep
  rw [accumGrad_eq_sum]

/-- Witness for C1: on the concrete one-sample dataset `dtW` with the
closed-form oracle, the update formula evaluates to `(101/100, 201/100)`. -/
theorem performStep_spec_witness :
    1 ≤ dtW.size ∧ performStep 1 2 dtW cladGrad = (101/100, 201/100) := by
  refine ⟨by norm_num [dtW], (performStep_spec dtW cladGrad 1 2 (by norm_num [dtW])).trans ?_⟩
  simp only [dtW, cladGrad, f]
  norm_num [range_one_eq]

/-- C2: for a one-sample dataset with known `θ0, θ1, x, y`, and an oracle
whose first two outputs are the partial derivatives of
`cost(θ0,θ1,x,y) = (f(θ0,θ1,x) - y)²` with respect to `θ0` and `θ1`, the
gradient accumulated by `performStep` equals the closed-form values
`2(f(θ0,θ1,x) - y)` and `2(f(θ0,θ1,x) - y)·x`. -/
theorem accumGrad_one_sample (theta_0 theta_1 x y lr : ℚ) (g : GradOracle)
    (hg : ∀ a b c d, (g a b c d).1 = 2 * (f a b c - d) ∧
      (g a b c d).2.1 = 2 * (f a b c - d) * c) :
    accumGrad theta_0 theta_1 ⟨[x], [y], 1, lr⟩ g =
      (2 * (f theta_0 theta_1 x - y), 2 * (f theta_0 theta_1 x - y) * x) := by
  have h1 := (hg theta_0 theta_1 x y).1
  have h2 := (hg theta_0 theta_1 x y).2
  simp [accumGrad, range_one_eq, h1, h2]

/-- Witness for C2: the modelled clad oracle satisfies the derivative
precondition, and on the dataset `{x = [2], y = [3]}` with `θ0 = 5, θ1 = 7`
the accumulated gradient equals the closed-form values. -/
theorem accumGrad_one_sample_witness :
    (∀ a b c d : ℚ, (cladGrad a b c d).1 = 2 * (f a b c - d) ∧
        (cladGrad a b c d).2.1 = 2 * (f a b c - d) * c) ∧
    accumGrad 5 7 ⟨[2], [3], 1, 1/100⟩ cladGrad =
      (2 * (f 5 7 2 - 3), 2 * (f 5 7 2 - 3) * 2) :=
  ⟨fun _ _ _ _ => ⟨rfl, rfl⟩,
   accumGrad_one_sample 5 7 2 3 (1/100) cladGrad (fun _ _ _ _ => ⟨rfl, rfl⟩)⟩

/-- C3: the convergence check returns true iff the absolute difference of
every parameter component between the previous and current vectors is
`≤ eps`; with previous `(1, 2)` and current `(1 + 5e-7, 2 - 5e-7)` it returns
true for `eps = 1e-6` and false for `eps = 1e-7`. -/
theorem convergedCheck_spec :
    (∀ (diff theta : ℚ × ℚ) (eps : ℚ), convergedCheck diff theta eps = true ↔
        (|diff.1 - theta.1| ≤ eps ∧ |diff.2 - theta.2| ≤ eps)) ∧
    convergedCheck (1, 2) (1 + 5/10000000, 2 - 5/10000000) (1/1000000) = true ∧
    convergedCheck (1, 2) (1 + 5/10000000, 2 - 5/10000000) (1/10000000) = false := by
  refine ⟨fun diff theta eps => by simp [convergedCheck], ?_, ?_⟩
  · simp only [convergedCheck, Bool.and_eq_true, decide_eq_true_eq]
    norm_num [abs_le]
  · simp only [convergedCheck, Bool.and_eq_false_iff, decide_eq_false_iff_not]
    norm_num [abs_le]

/-- With learning rate 0 the parameter update subtracts 0: both parameters
are unchanged by a step. -/
theorem performStep_lr_zero (dt : Dataset) (g : GradOracle) (theta_0 theta_1 : ℚ)
    (h : dt.learning_rate = 0) :
    performStep theta_0 theta_1 dt g = (theta_0, theta_1) := by
  simp [performStep, h]

/-- With `size = 0` the sample loop never runs, the accumulator stays `(0,0)`,
and the update subtracts `learning_rate * 0 / (2 * 0)`, which is 0 under the
rational division-by-zero convention: both parameters are unchanged. -/
theorem performStep_size_zero (dt : Dataset) (g : GradOracle) (theta_0 theta_1 : ℚ)
    (h : dt.size = 0) :
    performStep theta_0 theta_1 dt g = (theta_0, theta_1) := by
  simp [performStep, accumGrad, h]

/-- Comparing a parameter vector with itself passes the convergence test for
any nonnegative tolerance. -/
theorem convergedCheck_self (theta : ℚ × ℚ) (eps : ℚ) (h : 0 ≤ eps) :
    convergedCheck theta theta eps = true := by
  simp [convergedCheck, h]

/-- If the convergence flag is set and the step counter is still below the
bound, the loop exits immediately with the CONVERGED terminal state. -/
theorem optimizeLoop_exit_converged (g : GradOracle) (dt : Dataset) (maxSteps : ℕ)
    (eps : ℚ) (fuel : ℕ) (theta diff : ℚ × ℚ) (cs : ℕ)
    (hconv : convergedCheck diff (performStep theta.1 theta.2 dt g) eps = true)
    (hcs : cs < maxSteps) :
    optimizeLoop g dt maxSteps eps fuel theta diff cs =
      (performStep theta.1 theta.2 dt g, TermReason.converged, cs) := by
  unfold optimizeLoop
  simp [hconv, hcs]

/-- If the step counter has reached the bound, the loop exits after the
current body with the MAX_STEPS_REACHED terminal state. -/
theorem optimizeLoop_exit_bound (g : GradOracle) (dt : Dataset) (maxSteps : ℕ)
    (eps : ℚ) (fuel : ℕ) (theta diff : ℚ × ℚ) (cs : ℕ) (hcs : ¬ cs < maxSteps) :
    optimizeLoop g dt maxSteps eps fuel theta diff cs =
      (performStep theta.1 theta.2 dt g, TermReason.maxStepsReached, cs) := by
  unfold optimizeLoop
  simp [hcs]

/-- With learning rate 0 and a nonnegative tolerance, the very first iteration
already satisfies the convergence test, so the optimizer exits CONVERGED at
iteration 0 with the parameters unchanged. -/
theorem optimizeTraced_lr_zero (g : GradOracle) (theta : ℚ × ℚ) (dt : Dataset)
    (maxSteps : ℕ) (eps : ℚ) (hlr : dt.learning_rate = 0) (heps : 0 ≤ eps)
    (hms : 1 ≤ maxSteps) :
    optimizeTraced g theta dt maxSteps eps = (theta, TermReason.converged, 0) := by
  have hstep : performStep theta.1 theta.2 dt g = theta :=
    (performStep_lr_zero dt g theta.1 theta.2 hlr).trans (Prod.mk.eta)
  have hconv : convergedCheck theta (performStep theta.1 theta.2 dt g) eps = true := by
    rw [hstep]; exact convergedCheck_self theta eps heps
  unfold optimizeTraced
  rw [optimizeLoop_exit_converged g dt maxSteps eps maxSteps theta theta 0 hconv hms, hstep]

/-- C4 counterexample: with `learning_rate = 0` (no movement), `eps = 1e-6 > 0`
and step bound 5, the optimizer exits CONVERGED at iteration 0 — it does not
reach MAX_STEPS_REACHED, contrary to the claim. -/
theorem optimize_lr_zero_eps_pos_counterexample :
    (0:ℚ) < 1/1000000 ∧
    optimizeTraced cladGrad (0, 0) ⟨[1], [2], 1, 0⟩ 5 (1/1000000) =
      ((0, 0), TermReason.converged, 0) ∧
    (optimizeTraced cladGrad (0, 0) ⟨[1], [2], 1, 0⟩ 5 (1/1000000)).2.1 ≠
      TermReason.maxStepsReached := by
  have h := optimizeTraced_lr_zero cladGrad (0, 0) ⟨[1], [2], 1, 0⟩ 5 (1/1000000)
    rfl (by norm_num) (by norm_num)
  exact ⟨by norm_num, h, by rw [h]; simp⟩

/-- C4 (amended): with `learning_rate = 0` (no parameter movement), any
tolerance `eps ≥ 0` — both `eps = 0` and `eps > 0` — and a step bound of at
least 1, the optimizer converges at iteration 0 with the parameters unchanged
and never reaches MAX_STEPS_REACHED. -/
theorem optimize_no_movement_converges (g : GradOracle) (theta : ℚ × ℚ)
    (dt : Dataset) (maxSteps : ℕ) (eps : ℚ) (hlr : dt.learning_rate = 0)
    (heps : 0 ≤ eps) (hms : 1 ≤ maxSteps) :
    optimizeTraced g theta dt maxSteps eps = (theta, TermReason.converged, 0) ∧
    (optimizeTraced g theta dt maxSteps eps).2.1 ≠ TermReason.maxStepsReached := by
  have h := optimizeTraced_lr_zero g theta dt maxSteps eps hlr heps hms
  exact ⟨h, by rw [h]; simp⟩

/-- Witness for C4 (amended): a concrete zero-learning-rate run with `eps = 0`
and bound 7 converges at iteration 0. -/
theorem optimize_no_movement_converges_witness :
    (⟨[1], [2], 1, 0⟩ : Dataset).learning_rate = 0 ∧ (0:ℚ) ≤ 0 ∧ 1 ≤ 7 ∧
    (optimizeTraced cladGrad (3, 4) ⟨[1], [2], 1, 0⟩ 7 0 =
        ((3, 4), TermReason.converged, 0) ∧
      (optimizeTraced cladGrad (3, 4) ⟨[1], [2], 1, 0⟩ 7 0).2.1 ≠
        TermReason.maxStepsReached) :=
  ⟨rfl, le_refl 0, by norm_num,
   optimize_no_movement_converges cladGrad (3, 4) ⟨[1], [2], 1, 0⟩ 7 0 rfl
     (le_refl 0) (by norm_num)⟩

/-- C5: one unfolding of the optimization loop: on the very first iteration
the convergence check compares the caller-supplied initial parameter vector
(`diff` is initialized to a copy of `theta` before the loop) against the
post-step parameters, so the check is never computed against an uninitialized
previous snapshot. -/
theorem optimize_first_iteration (g : GradOracle) (theta : ℚ × ℚ) (dt : Dataset)
    (maxSteps : ℕ) (eps : ℚ) :
    optimizeTraced g theta dt maxSteps eps =
      if 0 < maxSteps ∧
          convergedCheck theta (performStep theta.1 theta.2 dt g) eps = false then
        optimizeLoop g dt maxSteps eps (maxSteps - 1) (performStep theta.1 theta.2 dt g)
          (performStep theta.1 theta.2 dt g) 1
      else
        (performStep theta.1 theta.2 dt g,
         if 0 < maxSteps then TermReason.converged else TermReason.maxStepsReached,
         0) := by
  unfold optimizeTraced
  cases maxSteps with
  | zero =>
    rw [optimizeLoop]
    simp
  | succ n =>
    rw [optimizeLoop]
    simp only [Nat.succ_sub_one]

/-- C8: the value returned by `optimize` is exactly the final parameter
vector, with no termination-reason information: any two runs whose final
parameters agree have identical return values, whatever their terminal
states were. -/
theorem optimize_return_is_final_params (g1 g2 : GradOracle) (t1 t2 : ℚ × ℚ)
    (d1 d2 : Dataset) (m1 m2 : ℕ) (e1 e2 : ℚ)
    (h : (optimizeTraced g1 t1 d1 m1 e1).1 = (optimizeTraced g2 t2 d2 m2 e2).1) :
    optimize g1 t1 d1 m1 e1 = optimize g2 t2 d2 m2 e2 := h

/-- Witness for C8: a run that exits CONVERGED (bound 5) and a run that exits
MAX_STEPS_REACHED (bound 0) with the same final parameters have equal
`optimize` return values. -/
theorem optimize_return_is_final_params_witness :
    (optimizeTraced cladGrad (0, 0) ⟨[1], [2], 1, 0⟩ 5 0).2.1 =
      TermReason.converged ∧
    (optimizeTraced cladGrad (0, 0) ⟨[1], [2], 1, 0⟩ 0 0).2.1 =
      TermReason.maxStepsReached ∧
    optimize cladGrad (0, 0) ⟨[1], [2], 1, 0⟩ 5 0 =
      optimize cladGrad (0, 0) ⟨[1], [2], 1, 0⟩ 0 0 := by
  have hA := optimizeTraced_lr_zero cladGrad (0, 0) ⟨[1], [2], 1, 0⟩ 5 0
    rfl (le_refl 0) (by norm_num)
  have hB : optimizeTraced cladGrad (0, 0) ⟨[1], [2], 1, 0⟩ 0 0 =
      ((0, 0), TermReason.maxStepsReached, 0) := by
    unfold optimizeTraced
    rw [optimizeLoop_exit_bound _ _ _ _ _ _ _ _ (by norm_num)]
    rw [performStep_lr_zero _ _ _ _ rfl]
  refine ⟨by rw [hA], by rw [hB],
    optimize_return_is_final_params _ _ _ _ _ _ _ _ _ _ ?_⟩
  rw [hA, hB]

/-- Two oracles that agree on their first two outputs produce the same
accumulated gradient. -/
theorem accumGrad_congr (g1 g2 : GradOracle)
    (h : ∀ a b c d, (g1 a b c d).1 = (g2 a b c d).1 ∧
      (g1 a b c d).2.1 = (g2 a b c d).2.1)
    (dt : Dataset) (theta_0 theta_1 : ℚ) :
    accumGrad theta_0 theta_1 dt g1 = accumGrad theta_0 theta_1 dt g2 := by
  have e1 : (fun i => (g1 theta_0 theta_1 (dt.x.getD i 0) (dt.y.getD i 0)).1)
      = fun i => (g2 theta_0 theta_1 (dt.x.getD i 0) (dt.y.getD i 0)).1 :=
    funext fun i => (h theta_0 theta_1 _ _).1
  have e2 : (fun i => (g1 theta_0 theta_1 (dt.x.getD i 0) (dt.y.getD i 0)).2.1)
      = fun i => (g2 theta_0 theta_1 (dt.x.getD i 0) (dt.y.getD i 0)).2.1 :=
    funext fun i => (h theta_0 theta_1 _ _).2
  rw [accumGrad_eq_sum, accumGrad_eq_sum, e1, e2]

/-- C9: the parameters produced by `performStep` depend only on the oracle's
first two outputs: two oracles agreeing on `∂/∂θ0` and `∂/∂θ1` everywhere,
however much they differ on `∂/∂x` and `∂/∂y`, give equal updated
parameters. -/
theorem performStep_ignores_last_two (g1 g2 : GradOracle)
    (h : ∀ a b c d, (g1 a b c d).1 = (g2 a b c d).1 ∧
      (g1 a b c d).2.1 = (g2 a b c d).2.1)
    (theta_0 theta_1 : ℚ) (dt : Dataset) :
    performStep theta_0 theta_1 dt g1 = performStep theta_0 theta_1 dt g2 := by
  unfold performStep
  rw [accumGrad_congr g1 g2 h dt theta_0 theta_1]

/-- An oracle agreeing with `cladGrad` on the first two outputs but returning
garbage in the last two. -/
def wildGrad : GradOracle := fun theta_0 theta_1 x y =>
  (2 * (f theta_0 theta_1 x - y), 2 * (f theta_0 theta_1 x - y) * x, 42, 99)

/-- Witness for C9: `wildGrad` and `cladGrad` differ in their third output at
`(0,0,0,0)` yet `performStep` gives the same parameters on `dtW`. -/
theorem performStep_ignores_last_two_witness :
    (wildGrad 0 0 0 0).2.2.1 ≠ (cladGrad 0 0 0 0).2.2.1 ∧
    performStep 1 2 dtW wildGrad = performStep 1 2 dtW cladGrad :=
  ⟨by norm_num [wildGrad, cladGrad, f],
   performStep_ignores_last_two wildGrad cladGrad (fun _ _ _ _ => ⟨rfl, rfl⟩) 1 2 dtW⟩

/-- One body of the optimization loop as a function of the parameter pair. -/
def stepFn (g : GradOracle) (dt : Dataset) : ℚ × ℚ → ℚ × ℚ :=
  fun p => performStep p.1 p.2 dt g

/-- Whatever the fuel, bound and counter, the parameter component returned by
the loop is some positive number of applications of the step body to the
entry parameters. -/
theorem optimizeLoop_iterates (g : GradOracle) (dt : Dataset) (maxSteps : ℕ)
    (eps : ℚ) :
    ∀ (fuel : ℕ) (theta diff : ℚ × ℚ) (cs : ℕ),
      ∃ n : ℕ, (optimizeLoop g dt maxSteps eps fuel theta diff cs).1 =
        (stepFn g dt)^[n + 1] theta := by
  intro fuel
  induction fuel with
  | zero =>
    intro theta diff cs
    refine ⟨0, ?_⟩
    simp only [optimizeLoop]
    split <;> simp [stepFn]
  | succ fuel ih =>
    intro theta diff cs
    by_cases hc : cs < maxSteps ∧
      convergedCheck diff (performStep theta.1 theta.2 dt g) eps = false
    · have hrec : optimizeLoop g dt maxSteps eps (fuel + 1) theta diff cs =
          optimizeLoop g dt maxSteps eps fuel (performStep theta.1 theta.2 dt g)
            (performStep theta.1 theta.2 dt g) (cs + 1) := by
        simp only [optimizeLoop]
        rw [if_pos hc]
      obtain ⟨n, hn⟩ := ih (performStep theta.1 theta.2 dt g)
        (performStep theta.1 theta.2 dt g) (cs + 1)
      refine ⟨n + 1, ?_⟩
      rw [hrec, Function.iterate_succ_apply (stepFn g dt) (n + 1) theta]
      exact hn
    · have hexit : (optimizeLoop g dt maxSteps eps (fuel + 1) theta diff cs).1 =
          performStep theta.1 theta.2 dt g := by
        simp only [optimizeLoop]
        rw [if_neg hc]
      exact ⟨0, by rw [hexit]; simp [stepFn]⟩

/-- C10: for every step bound, including 0, the optimizer executes at least
one full batch pass and parameter update before any termination condition is
evaluated: the returned parameters are a positive number of step-body
applications to the initial parameters, and with `maxSteps = 0` the run
performs exactly one step and exits MAX_STEPS_REACHED at iteration 0. -/
theorem optimize_at_least_one_step (g : GradOracle) (theta : ℚ × ℚ)
    (dt : Dataset) (maxSteps : ℕ) (eps : ℚ) :
    (∃ n : ℕ, optimize g theta dt maxSteps eps = (stepFn g dt)^[n + 1] theta) ∧
    optimizeTraced g theta dt 0 eps =
      (performStep theta.1 theta.2 dt g, TermReason.maxStepsReached, 0) := by
  constructor
  · exact optimizeLoop_iterates g dt maxSteps eps maxSteps theta theta 0
  · exact optimizeLoop_exit_bound g dt 0 eps 0 theta theta 0 (by norm_num)

/-- Reading a mapped range list below its length gives the mapped index. -/
theorem getD_map_range (n i : ℕ) (g : ℕ → ℚ) (h : i < n) :
    ((List.range n).map g).getD i 0 = g i := by
  rw [List.getD_eq_getElem?_getD, List.getElem?_map, List.getElem?_range h]
  rfl

/-- Every generated x sample is nonnegative. -/
theorem genX_nonneg (r : ℕ) : 0 ≤ genX r := by
  unfold genX
  positivity

/-- Every generated x sample is below 3. -/
theorem genX_lt_three (r : ℕ) : genX r < 3 := by
  unfold genX
  rw [div_lt_iff (by norm_num)]
  have hr : ((r % 100 : ℕ) : ℚ) < 100 := by
    exact_mod_cast Nat.mod_lt r (by norm_num)
  linarith

/-- Every intercept draw is the base 9 plus an offset in `[0, 1)`. -/
theorem genT0_decomp (r : ℕ) :
    ∃ off : ℚ, 0 ≤ off ∧ off < 1 ∧ genT0 r = 9 + off := by
  refine ⟨((r % 100 : ℕ) : ℚ) / 100, by positivity, ?_, rfl⟩
  rw [div_lt_iff (by norm_num)]
  have hr : ((r % 100 : ℕ) : ℚ) < 100 := by
    exact_mod_cast Nat.mod_lt r (by norm_num)
  linarith

/-- C6: for every random stream and every `N ≥ 1`, the generated dataset has
exactly `N` x samples and `N` y samples, records `size = N`, every x value
lies in `[0, 3)`, and every y value equals `(9 + off) + 2·x` for a per-sample
offset `off ∈ [0, 1)` (fixed base 9, constant slope `t1 = 2`). -/
theorem generateDataset_spec (rng : ℕ → ℕ) (N : ℕ) (hN : 1 ≤ N) :
    (generateDataset rng N).x.length = N ∧
    (generateDataset rng N).y.length = N ∧
    (generateDataset rng N).size = N ∧
    ∀ i, i < N →
      (0 ≤ (generateDataset rng N).x.getD i 0 ∧
        (generateDataset rng N).x.getD i 0 < 3) ∧
      ∃ off : ℚ, 0 ≤ off ∧ off < 1 ∧
        (generateDataset rng N).y.getD i 0 =
          (9 + off) + 2 * (generateDataset rng N).x.getD i 0 := by
  refine ⟨by simp [generateDataset], by simp [generateDataset], rfl, fun i hi => ?_⟩
  have hx : (generateDataset rng N).x.getD i 0 = genX (rng (2 * i)) :=
    getD_map_range N i _ hi
  have hy : (generateDataset rng N).y.getD i 0 =
      f (genT0 (rng (2 * i + 1))) 2 (genX (rng (2 * i))) :=
    getD_map_range N i _ hi
  obtain ⟨off, hoff0, hoff1, hoffeq⟩ := genT0_decomp (rng (2 * i + 1))
  refine ⟨⟨?_, ?_⟩, off, hoff0, hoff1, ?_⟩
  · rw [hx]; exact genX_nonneg _
  · rw [hx]; exact genX_lt_three _
  · rw [hx, hy, hoffeq]
    unfold f
    ring

/-- Witness for C6: the dataset generated from the all-zero stream with
`N = 1` satisfies the full invariant. -/
theorem generateDataset_spec_witness :
    1 ≤ 1 ∧
    ((generateDataset (fun _ => 0) 1).x.length = 1 ∧
      (generateDataset (fun _ => 0) 1).y.length = 1 ∧
      (generateDataset (fun _ => 0) 1).size = 1 ∧
      ∀ i, i < 1 →
        (0 ≤ (generateDataset (fun _ => 0) 1).x.getD i 0 ∧
          (generateDataset (fun _ => 0) 1).x.getD i 0 < 3) ∧
        ∃ off : ℚ, 0 ≤ off ∧ off < 1 ∧
          (generateDataset (fun _ => 0) 1).y.getD i 0 =
            (9 + off) + 2 * (generateDataset (fun _ => 0) 1).x.getD i 0) :=
  ⟨le_refl 1, generateDataset_spec (fun _ => 0) 1 (le_refl 1)⟩

/-- C7: the code performs no N = 0 validation: on an empty dataset the sample
loop leaves the accumulator at `(0, 0)`, the update's denominator `2·N` is 0
(the division by zero is executed, not rejected), and the optimizer still runs
its loop and returns normally — under the rational convention `q / 0 = 0` the
update subtracts 0, so the concrete run exits CONVERGED at iteration 0 with
no error ever signalled. -/
theorem optimize_size_zero_no_rejection :
    accumGrad 0 0 ⟨[], [], 0, 1/100⟩ cladGrad = (0, 0) ∧
    2 * (((⟨[], [], 0, 1/100⟩ : Dataset).size : ℚ)) = 0 ∧
    optimizeTraced cladGrad (0, 0) ⟨[], [], 0, 1/100⟩ 3 (1/1000000) =
      ((0, 0), TermReason.converged, 0) := by
  have hstep : performStep (0:ℚ) 0 ⟨[], [], 0, 1/100⟩ cladGrad = ((0:ℚ), (0:ℚ)) :=
    performStep_size_zero _ cladGrad 0 0 rfl
  refine ⟨rfl, by norm_num, ?_⟩
  have hconv : convergedCheck ((0:ℚ), (0:ℚ))
      (performStep (0:ℚ) 0 ⟨[], [], 0, 1/100⟩ cladGrad) (1/1000000) = true := by
    rw [hstep]
    exact convergedCheck_self _ _ (by norm_num)
  unfold optimizeTraced
  rw [optimizeLoop_exit_converged cladGrad _ 3 (1/1000000) 3 (0, 0) (0, 0) 0 hconv
    (by norm_num), hstep]

end GradientDescent
